import Mathlib

/- Verification of the MEGA winrate model (shrinkage) and its decision app:
   a shallow embedding of src/modelo_winrate_mega_shrink_v2.py and
   src/app_mega_shrink.py.  Numeric cells and odds are embedded as exact
   rationals; the shrinkage/weight/aggregation pipeline, which uses a square
   root, is embedded in the real numbers (real arithmetic stands in for IEEE
   floats, the usual convention of a shallow embedding). -/

deriving instance DecidableEq for Except

namespace Mega

/-- A spreadsheet cell as the loader sees it: a numeric value, a string, or a
missing value (None/NaN, relevant only to the name columns, whose loader runs
them through pd.isna).  Infinite and NaN float literals are outside the
model. -/
inductive PyVal where
  | num (q : ℚ)
  | str (s : String)
  | pynone
  deriving DecidableEq

/-- Python's str.strip(): drop whitespace from both ends (ASCII whitespace;
exotic unicode spaces are outside the model).  Implemented on the character
list so that it evaluates by kernel reduction. -/
def pystrip (s : String) : String :=
  String.mk (((s.toList.dropWhile Char.isWhitespace).reverse.dropWhile Char.isWhitespace).reverse)

/-- Python's str.lower() (faithful on the ASCII names the tables hold). -/
def pylower (s : String) : String :=
  String.mk (s.toList.map Char.toLower)

/-- Python's str.replace(a, b) for the one-character patterns the module
uses. -/
def replaceChar (s : String) (a b : Char) : String :=
  String.mk (s.toList.map (fun c => if c = a then b else c))

/-- Characters removed by norm_name after lowercasing: space, apostrophe
(written as its code point 39) and period — modelo_winrate_mega_shrink_v2.py
lines 53-60. -/
def removeNormChars (s : String) : String :=
  String.mk (s.toList.filter (fun c => c != ' ' && c != Char.ofNat 39 && c != '.'))

/-- norm_name on an already-string value: strip, lowercase, empty means None,
then drop spaces/apostrophes/periods (file modelo_winrate_mega_shrink_v2.py,
lines 53-60). -/
def norm_name_str (x : String) : Option String :=
  let s := pylower (pystrip x)
  if s.toList.isEmpty then none else some (removeNormChars s)

/-- norm_name of modelo_winrate_mega_shrink_v2.py lines 53-60.  A numeric cell
goes through str(x) first; toString here is an ASCII rendering of the rational,
a stand-in for Python's float formatting (no theorem below feeds a numeric cell
into a name column). -/
def norm_name : PyVal → Option String
  | .pynone => none
  | .str s => norm_name_str s
  | .num q => norm_name_str (toString q)

/-- _norm_colname of modelo_winrate_mega_shrink_v2.py lines 63-65: strip,
lowercase, spaces and hyphens to underscores. -/
def norm_colname (c : String) : String :=
  replaceChar (replaceChar (pylower (pystrip c)) ' ' '_') '-' '_'

/-- _pick of modelo_winrate_mega_shrink_v2.py lines 68-72: the first candidate
that is a column of the frame. -/
def pick (cols : List String) (candidates : List String) : Option String :=
  candidates.find? (fun cand => cols.contains cand)

/-- Value of a run of decimal digits. -/
def digitsVal (ds : List Char) : ℕ :=
  ds.foldl (fun acc c => 10 * acc + (c.toNat - 48)) 0

/-- Mantissa of a Python float literal: digits with at most one point, at
least one digit in total; returns the value and the unconsumed characters. -/
def parseMantissa (cs : List Char) : Option (ℚ × List Char) :=
  let intPart := cs.takeWhile (fun c => c.isDigit)
  let rest1 := cs.dropWhile (fun c => c.isDigit)
  match rest1 with
  | '.' :: rest2 =>
    let fracPart := rest2.takeWhile (fun c => c.isDigit)
    let rest3 := rest2.dropWhile (fun c => c.isDigit)
    if intPart.isEmpty && fracPart.isEmpty then none
    else some ((digitsVal intPart : ℚ) + (digitsVal fracPart : ℚ) / ((10 : ℚ) ^ fracPart.length), rest3)
  | _ =>
    if intPart.isEmpty then none else some ((digitsVal intPart : ℚ), rest1)

/-- Exponent tail of a Python float literal: empty, or e/E followed by an
optionally signed run of digits. -/
def parseExpPart : List Char → Option ℤ
  | [] => some 0
  | c :: rest =>
    if c = 'e' ∨ c = 'E' then
      match rest with
      | '-' :: ds =>
        if ds ≠ [] ∧ ds.all (fun d => d.isDigit) then some (-(digitsVal ds : ℤ)) else none
      | '+' :: ds =>
        if ds ≠ [] ∧ ds.all (fun d => d.isDigit) then some ((digitsVal ds : ℤ)) else none
      | ds =>
        if ds ≠ [] ∧ ds.all (fun d => d.isDigit) then some ((digitsVal ds : ℤ)) else none
    else none

/-- Python's float() applied to a string: surrounding whitespace, an optional
sign, a plain decimal mantissa and an optional exponent; anything else — in
particular a '%' suffix or a decimal comma — raises ValueError (None here).
Digit-group underscores and the inf/nan literals are outside the model. -/
def float_of_string (s : String) : Option ℚ :=
  let cs := (pystrip s).toList
  let signed :=
    match cs with
    | '-' :: rest => (true, rest)
    | '+' :: rest => (false, rest)
    | _ => (false, cs)
  match parseMantissa signed.2 with
  | none => none
  | some (m, rest) =>
    match parseExpPart rest with
    | none => none
    | some e =>
      let v := m * (10 : ℚ) ^ e
      some (if signed.1 then -v else v)

/-- Python's float() on a cell: numbers pass through, strings are parsed,
None raises (TypeError). -/
def pyFloat : PyVal → Option ℚ
  | .num q => some q
  | .str s => float_of_string s
  | .pynone => none

/-- A data-frame row, keyed by column name. -/
abbrev Row := List (String × PyVal)

/-- The aggregated lookup table built by build_stats:
(champion a, champion b) ↦ (wins, games), insertion-ordered like a dict. -/
abbrev Stats := List ((String × String) × (ℚ × ℚ))

/-- Cell of a row at a column (rows of a frame carry every column, so the
default is never reached on well-formed input). -/
def rowGet (r : Row) (c : String) : PyVal := (r.lookup c).getD PyVal.pynone

/-- Python falsiness of a norm_name result: None or the empty string. -/
def falsy : Option String → Bool
  | none => true
  | some s => s.isEmpty

/-- A load-time error of init_from_excel: pandas failing to find a sheet,
the explicit KeyError for unresolvable columns, or float() raising ValueError
on a cell. -/
inductive LoadErr where
  | sheetNotFound (name : String)
  | keyError (msg : String)
  | valueError (cell : PyVal)
  deriving DecidableEq

/-- defaultdict accumulation tmp[(a,b)][0] += wins; tmp[(a,b)][1] += g
(modelo_winrate_mega_shrink_v2.py lines 123-133). -/
def dictAdd : Stats → (String × String) → ℚ → ℚ → Stats
  | [], k, wins, g => [(k, (wins, g))]
  | (k0, v0) :: rest, k, wins, g =>
    if k0 = k then (k0, (v0.1 + wins, v0.2 + g)) :: rest
    else (k0, v0) :: dictAdd rest k wins g

/-- Loop of build_stats (modelo_winrate_mega_shrink_v2.py lines 122-134): rows
with a falsy name on either side are skipped; the games and winrate cells go
through plain float() — a ValueError aborts the whole build; wins = wr·g. -/
def build_stats_go (col_a col_b col_games col_wr : String) : List Row → Stats → Except LoadErr Stats
  | [], acc => .ok acc
  | r :: rs, acc =>
    let a := norm_name (rowGet r col_a)
    let b := norm_name (rowGet r col_b)
    if falsy a || falsy b then build_stats_go col_a col_b col_games col_wr rs acc
    else
      match pyFloat (rowGet r col_games) with
      | none => .error (.valueError (rowGet r col_games))
      | some g =>
        match pyFloat (rowGet r col_wr) with
        | none => .error (.valueError (rowGet r col_wr))
        | some wr =>
          build_stats_go col_a col_b col_games col_wr rs
            (dictAdd acc (a.getD (""), b.getD ("")) (wr * g) g)

/-- build_stats of modelo_winrate_mega_shrink_v2.py lines 122-134. -/
def build_stats (rows : List Row) (col_a col_b col_games col_wr : String) : Except LoadErr Stats :=
  build_stats_go col_a col_b col_games col_wr rows []

/-- A sheet: its headers and its rows (rows keyed by the same headers). -/
structure Sheet where
  headers : List String
  rows : List Row
  deriving DecidableEq

/-- A workbook: named sheets. -/
abbrev Workbook := List (String × Sheet)

/-- _load_sheet of modelo_winrate_mega_shrink_v2.py lines 75-78: read the
named sheet (pandas raises when it is absent) and normalize its column
names. -/
def load_sheet (excel : Workbook) (sheet : String) : Except LoadErr Sheet :=
  match excel.lookup sheet with
  | none => .error (.sheetNotFound sheet)
  | some sh =>
    .ok ⟨sh.headers.map norm_colname,
         sh.rows.map (fun r => r.map (fun p => (norm_colname p.1, p.2)))⟩

/-- Candidate headers for the base-champion column
(modelo_winrate_mega_shrink_v2.py lines 94 and 108). -/
def vs_a_cands : List String := ["campeao", "champion_a", "champion1", "champion_1", "champion"]

/-- Candidate headers for the opponent column (line 95). -/
def vs_b_cands : List String :=
  ["vs", "opponent", "enemy", "champion_b", "champion2", "champion_2", "champion"]

/-- Candidate headers for the ally column of the pairing sheet (line 109). -/
def with_b_cands : List String :=
  ["with", "ally", "pair", "champion_b", "champion2", "champion_2", "champion"]

/-- Candidate headers for the games column (lines 96 and 110). -/
def games_cands : List String := ["games", "matches", "n", "count"]

/-- Candidate headers for the winrate column (lines 97 and 111). -/
def wr_cands : List String := ["winrate", "wr", "win_rate"]

/-- Column resolution for one sheet (modelo_winrate_mega_shrink_v2.py lines
94-105 and 108-118): pick each logical column by its candidate list, force
campeao/champion when both are present, and fail when any of the four is
unresolved. -/
def resolve_cols (sh : Sheet) (b_cands : List String) : Option (String × String × String × String) :=
  let ca0 := pick sh.headers vs_a_cands
  let cb0 := pick sh.headers b_cands
  let cg := pick sh.headers games_cands
  let cw := pick sh.headers wr_cands
  let forced := sh.headers.contains ("campeao") && sh.headers.contains ("champion")
  let ca := if forced then some ("campeao") else ca0
  let cb := if forced then some ("champion") else cb0
  match ca, cb, cg, cw with
  | some a, some b, some g, some w => some (a, b, g, w)
  | _, _, _, _ => none

/-- The module-level store: _vs_stats and _with_stats
(modelo_winrate_mega_shrink_v2.py lines 45-46). -/
structure ModuleState where
  vs_stats : Option Stats
  with_stats : Option Stats
  deriving DecidableEq

/-- Separator-joined concatenation (String.intercalate, written structurally
so that it evaluates by kernel reduction). -/
def joinSep (sep : String) : List String → String
  | [] => ""
  | [s] => s
  | s :: rest => s ++ sep ++ joinSep sep rest

/-- Python's repr of a list of strings, as an f-string interpolates it. -/
def pyListRepr (l : List String) : String :=
  "[" ++ joinSep (", ") (l.map (fun s => "\x27" ++ s ++ "\x27")) ++ "]"

/-- The KeyError message for an unresolvable Winrate_vs sheet (line 106). -/
def vs_err_msg (headers : List String) : String :=
  "Winrate_vs: colunas insuficientes. Encontradas: " ++ pyListRepr headers

/-- The KeyError message for an unresolvable Winrate_with sheet (line 119). -/
def with_err_msg (headers : List String) : String :=
  "Winrate_with: colunas insuficientes. Encontradas: " ++ pyListRepr headers

/-- init_from_excel of modelo_winrate_mega_shrink_v2.py lines 81-137, as a
state transformer over the module globals: load both sheets, resolve the
columns of each, then assign _vs_stats := build_stats(vs) and afterwards
_with_stats := build_stats(wt); an exception leaves whatever had been assigned
up to that point. -/
def init_from_excel (excel : Workbook) (st : ModuleState) : Except LoadErr Unit × ModuleState :=
  match load_sheet excel ("Winrate_vs") with
  | .error e => (.error e, st)
  | .ok vs =>
    match load_sheet excel ("Winrate_with") with
    | .error e => (.error e, st)
    | .ok wt =>
      match resolve_cols vs vs_b_cands with
      | none => (.error (.keyError (vs_err_msg vs.headers)), st)
      | some (a1, b1, g1, w1) =>
        match resolve_cols wt with_b_cands with
        | none => (.error (.keyError (with_err_msg wt.headers)), st)
        | some (a2, b2, g2, w2) =>
          match build_stats vs.rows a1 b1 g1 w1 with
          | .error e => (.error e, st)
          | .ok d1 =>
            match build_stats wt.rows a2 b2 g2 w2 with
            | .error e => (.error e, { st with vs_stats := some d1 })
            | .ok d2 => (.ok (), ⟨some d1, some d2⟩)

/-- MU_GLOBAL of modelo_winrate_mega_shrink_v2.py line 35. -/
noncomputable def MU_GLOBAL : ℝ := 0.5

/-- K_PRIOR of modelo_winrate_mega_shrink_v2.py line 36. -/
noncomputable def K_PRIOR : ℝ := 30.0

/-- WEIGHT_CAP of modelo_winrate_mega_shrink_v2.py line 37. -/
noncomputable def WEIGHT_CAP : ℝ := 50.0

/-- shrink_prob of modelo_winrate_mega_shrink_v2.py lines 158-161: clamp wins
and games to zero, then (wins + k·mu)/(games + k). -/
noncomputable def shrink_prob (wins games : ℝ) (mu : ℝ := MU_GLOBAL) (k : ℝ := K_PRIOR) : ℝ :=
  (max wins 0 + k * mu) / (max games 0 + k)

/-- weight_from_games of modelo_winrate_mega_shrink_v2.py lines 164-166:
min(sqrt(max(games,0)), WEIGHT_CAP). -/
noncomputable def weight_from_games (games : ℝ) : ℝ :=
  min (Real.sqrt (max games 0)) WEIGHT_CAP

/-- One head-to-head lookup of calcular_winrate_vs (lines 183-192): skip a
falsy name on either side, else look the ordered pair up. -/
def lookup_vs (stats : Stats) (a b : Option String) : Option (ℚ × ℚ) :=
  if falsy a || falsy b then none
  else stats.lookup (a.getD (""), b.getD (""))

/-- One pairing lookup of calcular_winrate_with (lines 210-223): skip a falsy
name, try the pair in order, then reversed. -/
def lookup_with (stats : Stats) (a b : Option String) : Option (ℚ × ℚ) :=
  if falsy a || falsy b then none
  else
    match stats.lookup (a.getD (""), b.getD ("")) with
    | some v => some v
    | none => stats.lookup (b.getD (""), a.getD (""))

/-- Ordered cross product, in the double-loop order of calcular_winrate_vs. -/
def crossPairs : List α → List β → List (α × β)
  | [], _ => []
  | a :: restA, bs => bs.map (fun b => (a, b)) ++ crossPairs restA bs

/-- Pairs i < j of a list, in the double-loop order of calcular_winrate_with. -/
def pairsOf : List α → List (α × α)
  | [] => []
  | x :: xs => xs.map (fun y => (x, y)) ++ pairsOf xs

/-- The (wins, games) entries found by the loop of calcular_winrate_vs, in
loop order. -/
def vs_evidence (stats : Stats) (time_a time_b : List String) : List (ℚ × ℚ) :=
  (crossPairs (time_a.map norm_name_str) (time_b.map norm_name_str)).filterMap
    (fun p => lookup_vs stats p.1 p.2)

/-- The (wins, games) entries found by the loop of calcular_winrate_with, in
loop order. -/
def with_evidence (stats : Stats) (time : List String) : List (ℚ × ℚ) :=
  (pairsOf (time.map norm_name_str)).filterMap (fun p => lookup_with stats p.1 p.2)

/-- Accumulated total = Σ p·w over the found pairs (the loop variable total of
lines 181-196 and 208-227). -/
noncomputable def wm_total (ev : List (ℚ × ℚ)) : ℝ :=
  (ev.map (fun p => shrink_prob (p.1 : ℝ) (p.2 : ℝ) * weight_from_games (p.2 : ℝ))).sum

/-- Accumulated wtot = Σ w over the found pairs. -/
noncomputable def wm_weight (ev : List (ℚ × ℚ)) : ℝ :=
  (ev.map (fun p => weight_from_games (p.2 : ℝ))).sum

/-- Return value of both aggregators (lines 198 and 229): MU_GLOBAL when
wtot ≤ 0, else total/wtot. -/
noncomputable def weighted_mean (ev : List (ℚ × ℚ)) : ℝ :=
  if wm_weight ev ≤ 0 then MU_GLOBAL else wm_total ev / wm_weight ev

/-- calcular_winrate_vs of modelo_winrate_mega_shrink_v2.py lines 173-198,
with the store passed explicitly (the module global _vs_stats). -/
noncomputable def calcular_winrate_vs (stats : Stats) (time_a time_b : List String) : ℝ :=
  weighted_mean (vs_evidence stats time_a time_b)

/-- calcular_winrate_with of modelo_winrate_mega_shrink_v2.py lines 201-229,
with the store passed explicitly (the module global _with_stats). -/
noncomputable def calcular_winrate_with (stats : Stats) (time : List String) : ℝ :=
  weighted_mean (with_evidence stats time)

/-- score_azul / score_ver of calcular_chance_vitoria (lines 243-244):
(vs-aggregate of the team against the opponent + with-aggregate of the
team) / 2. -/
noncomputable def team_score (vsS wS : Stats) (time opp : List String) : ℝ :=
  (calcular_winrate_vs vsS time opp + calcular_winrate_with wS time) / 2

/-- calcular_chance_vitoria of modelo_winrate_mega_shrink_v2.py lines 232-258:
(50, 50) when the score sum is ≤ 0, else the normalized percentages. -/
noncomputable def calcular_chance_vitoria (vsS wS : Stats) (time_azul time_vermelho : List String) :
    ℝ × ℝ :=
  if team_score vsS wS time_azul time_vermelho + team_score vsS wS time_vermelho time_azul ≤ 0
  then (50, 50)
  else
    ((team_score vsS wS time_azul time_vermelho /
        (team_score vsS wS time_azul time_vermelho + team_score vsS wS time_vermelho time_azul)) * 100,
     (team_score vsS wS time_vermelho time_azul /
        (team_score vsS wS time_azul time_vermelho + team_score vsS wS time_vermelho time_azul)) * 100)

/-- Reason string of app_mega_shrink.py line 72. -/
def reason_invalid : String := "Odd inválida"

/-- Reason string of app_mega_shrink.py line 75 with its f-string resolved
(RULE_A_ODD_MIN = 2.00, RULE_A_PP_MIN = 2.0). -/
def reason_A : String := "Regra A: odd ≥ 2.00 e pp ≥ 2.0"

/-- Reason string of app_mega_shrink.py line 77 with its f-string resolved
(RULE_B_ODD_MIN = 1.70, RULE_B_PP_MIN = 3.0). -/
def reason_B : String := "Regra B: odd ≥ 1.70 e pp ≥ 3.0"

/-- Reason string of app_mega_shrink.py line 81. -/
def reason_low : String := "Odd < 1.70"

/-- Reason string of app_mega_shrink.py line 83. -/
def reason_gap3 : String := "pp < 3.0 para odd < 2.00"

/-- Reason string of app_mega_shrink.py line 85. -/
def reason_gap2 : String := "pp < 2.0 (mesmo com odd ≥ 2.00)"

/-- Reason string of app_mega_shrink.py line 86. -/
def reason_none : String := "Não bate as regras"

/-- should_bet of app_mega_shrink.py lines 67-86; odds are exact rationals,
None is the absent odd.  The thresholds are RULE_A_ODD_MIN = 2.00,
RULE_A_PP_MIN = 2.0, RULE_B_ODD_MIN = 1.70, RULE_B_PP_MIN = 3.0 (lines
26-30). -/
def should_bet (odd : Option ℚ) (gap_pp : ℚ) : Bool × String :=
  match odd with
  | none => (false, reason_invalid)
  | some o =>
    if o ≤ 1 then (false, reason_invalid)
    else if 2 ≤ o ∧ 2 ≤ gap_pp then (true, reason_A)
    else if 17 / 10 ≤ o ∧ 3 ≤ gap_pp then (true, reason_B)
    else if o < 17 / 10 then (false, reason_low)
    else if o < 2 ∧ gap_pp < 3 then (false, reason_gap3)
    else if 2 ≤ o ∧ gap_pp < 2 then (false, reason_gap2)
    else (false, reason_none)

/-- Top-level names the module modelo_winrate_mega_shrink_v2.py binds, in
source order: the future/typing/stdlib imports (lines 22-29), the parameters
and state (lines 35-46) and the defs (lines 53-314). -/
def module_globals : List String :=
  ["annotations", "math", "os", "defaultdict", "Dict", "Optional", "Tuple", "Union", "Any",
   "List", "pd", "MU_GLOBAL", "K_PRIOR", "WEIGHT_CAP", "DEFAULT_XLSX", "_vs_stats",
   "_with_stats", "norm_name", "_norm_colname", "_pick", "_load_sheet", "init_from_excel",
   "_ensure_loaded", "shrink_prob", "weight_from_games", "calcular_winrate_vs",
   "calcular_winrate_with", "calcular_chance_vitoria", "diagnostico_draft", "sample_warning"]

/-- The module-global names the body of sample_warning dereferences after its
_ensure_loaded() call, in execution order: the assert on line 321 reads
_winrate_vs then _winrate_with, the name normalization on lines 324-329 reads
normalizar_nome, and _sum_games on line 333 reads limpar_numero. -/
def sample_warning_reads : List String :=
  ["_winrate_vs", "_winrate_with", "normalizar_nome", "limpar_numero"]

/-- A Python exception of the sample_warning model. -/
inductive PyExc where
  | nameError (n : String)
  deriving DecidableEq

/-- sample_warning of modelo_winrate_mega_shrink_v2.py lines 314-410, entered
with the store loaded (so that _ensure_loaded() on line 320 returns): Python
resolves each global read against the module's bindings at call time and
raises NameError at the first name that is not bound; only if every read
resolved could the documented coverage summary be produced. -/
def sample_warning (time_azul time_vermelho : List String) : Except PyExc (List String) :=
  match sample_warning_reads.find? (fun n => !(module_globals.contains n)) with
  | some n => .error (.nameError n)
  | none => .ok (time_azul ++ time_vermelho)

/-- A pairing store that records at most one direction per unordered pair of
distinct champions: no two entries carry mutually reversed keys (the shape the
spec assumes of the source table). -/
def oneDirectional (stats : Stats) : Prop :=
  ∀ p ∈ stats, ∀ q ∈ stats, p.1.1 = q.1.2 → p.1.2 = q.1.1 → p.1.1 = p.1.2

/-- Bool test: pat is a prefix of the first list. -/
def leadsWith : List Char → List Char → Bool
  | _, [] => true
  | [], _ :: _ => false
  | c :: cs, p :: ps => c == p && leadsWith cs ps

/-- Bool test: pat occurs as a contiguous sublist. -/
def listHasSubstr : List Char → List Char → Bool
  | [], pat => pat.isEmpty
  | c :: rest, pat => leadsWith (c :: rest) pat || listHasSubstr rest pat

/-- Bool substring test on strings. -/
def strContainsSub (s pat : String) : Bool :=
  listHasSubstr s.toList pat.toList

/-- A source row whose games cell is the string 55% — a value the spec's
permissive parser would accept as 55 percent, but that plain float()
rejects. -/
def c1_row : Row :=
  [("campeao", .str ("ahri")), ("champion", .str ("zed")),
   ("games", .str ("55%")), ("winrate", .num (11 / 20))]

/-- A workbook whose Winrate_vs sheet has no games column (headers resolve to
campeao/champion/winrate), while the Winrate_with sheet is complete. -/
def c4_wb : Workbook :=
  [("Winrate_vs", ⟨["Campeao", "Champion", "Winrate"], []⟩),
   ("Winrate_with", ⟨["Campeao", "Champion", "Games", "Winrate"], []⟩)]

/-- The Winrate_vs sheet of c4_wb after _load_sheet normalizes its headers. -/
def c4_vs_sheet : Sheet := ⟨["campeao", "champion", "winrate"], []⟩

/-- The Winrate_with sheet of c4_wb after _load_sheet normalizes its
headers. -/
def c4_wt_sheet : Sheet := ⟨["campeao", "champion", "games", "winrate"], []⟩

/-- The KeyError message init_from_excel raises on c4_wb. -/
def c4_msg : String :=
  "Winrate_vs: colunas insuficientes. Encontradas: [\x27campeao\x27, \x27champion\x27, \x27winrate\x27]"

/-- A workbook whose Winrate_vs sheet loads cleanly but whose Winrate_with
sheet has an unparsable games cell, so that init_from_excel fails after
assigning _vs_stats. -/
def c5_wb : Workbook :=
  [("Winrate_vs",
    ⟨["campeao", "champion", "games", "winrate"],
     [[("campeao", .str ("ahri")), ("champion", .str ("zed")),
       ("games", .num 10), ("winrate", .num (1 / 2))]]⟩),
   ("Winrate_with",
    ⟨["campeao", "champion", "games", "winrate"],
     [[("campeao", .str ("ahri")), ("champion", .str ("lulu")),
       ("games", .str ("oops")), ("winrate", .num (1 / 2))]]⟩)]

/-- A previously loaded (empty) snapshot of the module store. -/
def c5_st0 : ModuleState := ⟨some [], some []⟩

/-- The store state left behind when init_from_excel fails on c5_wb starting
from c5_st0: _vs_stats already replaced, _with_stats still the old value. -/
def c5_poststate : ModuleState := ⟨some [(("ahri", "zed"), (1 / 2 * 10, 10))], some []⟩

/-- A pairing store holding BOTH directions of the pair x, y with different
statistics (built, e.g., from source rows listing each direction). -/
def cexStore : Stats := [(("x", "y"), (3, 10)), (("y", "x"), (7, 10))]

/-- A pairing store holding one direction only. -/
def cexStoreOne : Stats := [(("x", "y"), (3, 10))]

/-- A 5-member team. -/
def cexTeam1 : List String := ["x", "y", "c", "d", "e"]

/-- The same 5 members with the first two swapped. -/
def cexTeam2 : List String := ["y", "x", "c", "d", "e"]

/-- Claim C3: should_bet rejects an absent or ≤ 1 odd as invalid; with a valid
odd it enters exactly when Rule A (odd ≥ 2.00 and gap ≥ 2.0, reason citing
Regra A) or Rule B (odd ≥ 1.70 and gap ≥ 3.0, reason citing Regra B) holds,
Rule A checked first; every other input is a skip whose reason identifies the
missed threshold (the generic fallback reason is unreachable); and the five
concrete scenarios behave as the claim lists them. -/
theorem C3_should_bet_spec (odd : Option ℚ) (gap_pp : ℚ) :
    should_bet none gap_pp = (false, reason_invalid)
  ∧ (∀ o : ℚ, odd = some o →
      ((o ≤ 1 → should_bet odd gap_pp = (false, reason_invalid))
      ∧ (1 < o → ((should_bet odd gap_pp).1 = true ↔
            (2 ≤ o ∧ 2 ≤ gap_pp) ∨ (17 / 10 ≤ o ∧ 3 ≤ gap_pp)))
      ∧ (2 ≤ o → 2 ≤ gap_pp → should_bet odd gap_pp = (true, reason_A))
      ∧ (1 < o → ¬(2 ≤ o ∧ 2 ≤ gap_pp) → 17 / 10 ≤ o → 3 ≤ gap_pp →
            should_bet odd gap_pp = (true, reason_B))
      ∧ (1 < o →
            should_bet odd gap_pp = (true, reason_A) ∨
            should_bet odd gap_pp = (true, reason_B) ∨
            should_bet odd gap_pp = (false, reason_low) ∨
            should_bet odd gap_pp = (false, reason_gap3) ∨
            should_bet odd gap_pp = (false, reason_gap2))))
  ∧ should_bet (some (23 / 10)) (5 / 2) = (true, reason_A)
  ∧ should_bet (some (17 / 10)) 3 = (true, reason_B)
  ∧ should_bet (some (17 / 10)) (29 / 10) = (false, reason_gap3)
  ∧ should_bet (some 1) gap_pp = (false, reason_invalid)
  ∧ should_bet (some (9 / 5)) (3 / 2) = (false, reason_gap3) := by
  refine ⟨rfl, ?_, by norm_num [should_bet], by norm_num [should_bet], by norm_num [should_bet],
    ?_, by norm_num [should_bet]⟩
  · rintro o rfl
    refine ⟨fun h1 => ?_, fun h1 => ?_, fun h2 hg => ?_, fun h1 hA hB hg => ?_, fun h1 => ?_⟩
    · simp only [should_bet]
      rw [if_pos h1]
    · simp only [should_bet]
      rw [if_neg (not_le.mpr h1)]
      split_ifs with hA hB <;> simp_all
    · have h1 : ¬ o ≤ 1 := by linarith
      simp only [should_bet]
      rw [if_neg h1, if_pos ⟨h2, hg⟩]
    · simp only [should_bet]
      rw [if_neg (not_le.mpr h1), if_neg hA, if_pos ⟨hB, hg⟩]
    · simp only [should_bet]
      rw [if_neg (not_le.mpr h1)]
      split_ifs with hA hB hlow hg3 hg2
      · exact Or.inl rfl
      · exact Or.inr (Or.inl rfl)
      · exact Or.inr (Or.inr (Or.inl rfl))
      · exact Or.inr (Or.inr (Or.inr (Or.inl rfl)))
      · exact Or.inr (Or.inr (Or.inr (Or.inr rfl)))
      · exfalso
        push_neg at hA hB hg3 hg2
        have hge : 17 / 10 ≤ o := not_lt.mp hlow
        rcases lt_or_le o 2 with h2 | h2
        · have := hg3 h2
          have := hB hge
          linarith
        · have := hg2 h2
          have := hA h2
          linarith
  · simp only [should_bet]
    rw [if_pos (le_refl (1 : ℚ))]

/-- Claim C8: for every pair of input team lists, sample_warning raises a
NameError before producing any result — the first module-global read of its
body, _winrate_vs, is unbound, and none of _winrate_vs, _winrate_with,
normalizar_nome, limpar_numero is defined anywhere in the module. -/
theorem C8_sample_warning_name_error (time_azul time_vermelho : List String) :
    sample_warning time_azul time_vermelho = .error (.nameError ("_winrate_vs"))
  ∧ module_globals.contains ("_winrate_vs") = false
  ∧ module_globals.contains ("_winrate_with") = false
  ∧ module_globals.contains ("normalizar_nome") = false
  ∧ module_globals.contains ("limpar_numero") = false :=
  ⟨rfl, by decide, by decide, by decide, by decide⟩

/-- Claim C9: shrink_prob computes (wins + k·mu)/(games + k) after clamping
negative wins and games to zero; for fixed games it is monotone non-decreasing
in wins; it equals mu at wins = games = 0 and converges to mu as games → 0
(wins held at a fixed rate r·games), and converges to the rate r = wins/games
as games → ∞ at that fixed rate. -/
theorem C9_shrink_prob_spec :
    (∀ wins games : ℝ,
        shrink_prob wins games = (max wins 0 + K_PRIOR * MU_GLOBAL) / (max games 0 + K_PRIOR))
  ∧ (∀ games w1 w2 : ℝ, w1 ≤ w2 → shrink_prob w1 games ≤ shrink_prob w2 games)
  ∧ shrink_prob 0 0 = MU_GLOBAL
  ∧ (∀ r : ℝ, 0 ≤ r →
      Filter.Tendsto (fun g : ℝ => shrink_prob (r * g) g) (nhds 0) (nhds MU_GLOBAL))
  ∧ (∀ r : ℝ, 0 ≤ r →
      Filter.Tendsto (fun g : ℝ => shrink_prob (r * g) g) Filter.atTop (nhds r)) := by
  have hK : (0 : ℝ) < K_PRIOR := by norm_num [K_PRIOR]
  refine ⟨fun wins games => rfl, ?_, ?_, ?_, ?_⟩
  · intro games w1 w2 h
    unfold shrink_prob
    have hden : (0 : ℝ) < max games 0 + K_PRIOR := by
      have : (0 : ℝ) ≤ max games 0 := le_max_right _ _
      linarith
    have hnum : max w1 0 + K_PRIOR * MU_GLOBAL ≤ max w2 0 + K_PRIOR * MU_GLOBAL :=
      add_le_add_right (max_le_max h le_rfl) _
    exact (div_le_div_iff_of_pos_right hden).mpr hnum
  · unfold shrink_prob
    norm_num [MU_GLOBAL, K_PRIOR]
  · intro r hr
    have hc : Continuous fun g : ℝ => (max (r * g) 0 + K_PRIOR * MU_GLOBAL) / (max g 0 + K_PRIOR) := by
      apply Continuous.div
      · exact ((continuous_const.mul continuous_id).max continuous_const).add continuous_const
      · exact (continuous_id.max continuous_const).add continuous_const
      · intro x
        have : (0 : ℝ) ≤ max x 0 := le_max_right _ _
        positivity
    have ht := hc.tendsto 0
    unfold shrink_prob
    convert ht using 2
    norm_num [MU_GLOBAL, K_PRIOR]
  · intro r hr
    have h0 : Filter.Tendsto (fun g : ℝ => (K_PRIOR * MU_GLOBAL - K_PRIOR * r) / (g + K_PRIOR))
        Filter.atTop (nhds 0) :=
      Filter.Tendsto.div_atTop tendsto_const_nhds
        (Filter.tendsto_atTop_add_const_right _ _ Filter.tendsto_id)
    have h1 : Filter.Tendsto (fun g : ℝ => r + (K_PRIOR * MU_GLOBAL - K_PRIOR * r) / (g + K_PRIOR))
        Filter.atTop (nhds r) := by
      simpa using tendsto_const_nhds.add h0
    apply h1.congr'
    filter_upwards [Filter.eventually_ge_atTop (0 : ℝ)] with g hg
    have hgk : g + K_PRIOR ≠ 0 := by linarith
    unfold shrink_prob
    rw [max_eq_left (mul_nonneg hr hg), max_eq_left hg]
    field_simp
    ring

/-- Claim C10: weight_from_games is monotone non-decreasing in games, bounded
above by 50.0 on every input, and equals sqrt(games) exactly for
0 ≤ games ≤ 2500. -/
theorem C10_weight_from_games_spec :
    (∀ g1 g2 : ℝ, g1 ≤ g2 → weight_from_games g1 ≤ weight_from_games g2)
  ∧ (∀ g : ℝ, weight_from_games g ≤ 50)
  ∧ (∀ g : ℝ, 0 ≤ g → g ≤ 2500 → weight_from_games g = Real.sqrt g) := by
  refine ⟨?_, ?_, ?_⟩
  · intro g1 g2 h
    unfold weight_from_games
    exact min_le_min (Real.sqrt_le_sqrt (max_le_max h le_rfl)) le_rfl
  · intro g
    unfold weight_from_games WEIGHT_CAP
    exact le_trans (min_le_right _ _) (by norm_num)
  · intro g hg0 hg
    unfold weight_from_games
    rw [max_eq_left hg0]
    refine min_eq_left ?_
    have h50 : Real.sqrt 2500 = 50 := by
      rw [show (2500 : ℝ) = 50 ^ 2 by norm_num, Real.sqrt_sq (by norm_num : (0 : ℝ) ≤ 50)]
    calc Real.sqrt g ≤ Real.sqrt 2500 := Real.sqrt_le_sqrt hg
      _ = 50 := h50
      _ ≤ WEIGHT_CAP := by norm_num [WEIGHT_CAP]

/-- Claim C1 (corrected): build_stats parses games and win-rate cells with
plain float() — a '%' suffix or a decimal comma is NOT accepted — and a row
whose cell float() cannot parse raises ValueError, aborting the whole load
rather than degrading the cell to zero. -/
theorem C1_strict_cell_parse (r : Row) (rest : List Row) (col_a col_b col_games col_wr : String)
    (ha : falsy (norm_name (rowGet r col_a)) = false)
    (hb : falsy (norm_name (rowGet r col_b)) = false)
    (hg : pyFloat (rowGet r col_games) = none) :
    build_stats (r :: rest) col_a col_b col_games col_wr =
      .error (.valueError (rowGet r col_games))
  ∧ float_of_string ("0.55") = some (11 / 20)
  ∧ float_of_string ("55%") = none
  ∧ float_of_string ("0,55") = none := by
  refine ⟨?_, ?_, rfl, rfl⟩
  · simp only [build_stats, build_stats_go, ha, hb]
    simp [hg]
  · simp +decide [float_of_string, pystrip, parseMantissa, parseExpPart, digitsVal]
    norm_num

/-- Claim C1, counterexample to the claim as stated: a row whose games cell is
the string 55% makes build_stats raise (return an error) instead of degrading
the cell to zero, so one dirty cell does abort the load. -/
theorem C1_counterexample :
    build_stats [c1_row] ("campeao") ("champion") ("games") ("winrate") =
      .error (.valueError (.str ("55%"))) := rfl

/-- Claim C1, witness: the strict-parse theorem applied to the concrete dirty
row c1_row. -/
theorem C1_witness :
    falsy (norm_name (rowGet c1_row ("campeao"))) = false
  ∧ falsy (norm_name (rowGet c1_row ("champion"))) = false
  ∧ pyFloat (rowGet c1_row ("games")) = none
  ∧ (build_stats [c1_row] ("campeao") ("champion") ("games") ("winrate") =
        .error (.valueError (rowGet c1_row ("games")))
     ∧ float_of_string ("0.55") = some (11 / 20)
     ∧ float_of_string ("55%") = none
     ∧ float_of_string ("0,55") = none) :=
  ⟨rfl, rfl, rfl,
    C1_strict_cell_parse c1_row [] ("campeao") ("champion") ("games") ("winrate") rfl rfl rfl⟩

/-- Claim C4 (corrected): when the four logical columns of a sheet cannot all
be resolved, init_from_excel fails with a KeyError naming the sheet and the
actual (normalized) headers found — but not the missing logical field(s). -/
theorem C4_schema_error_message (excel : Workbook) (st : ModuleState) (vs wt : Sheet)
    (hvs : load_sheet excel ("Winrate_vs") = .ok vs)
    (hwt : load_sheet excel ("Winrate_with") = .ok wt) :
    (resolve_cols vs vs_b_cands = none →
        init_from_excel excel st = (.error (.keyError (vs_err_msg vs.headers)), st))
  ∧ (∀ cols, resolve_cols vs vs_b_cands = some cols →
        resolve_cols wt with_b_cands = none →
        init_from_excel excel st = (.error (.keyError (with_err_msg wt.headers)), st)) := by
  constructor
  · intro hres
    simp only [init_from_excel, hvs, hwt, hres]
  · rintro ⟨a, b, g, w⟩ hres hres2
    simp only [init_from_excel, hvs, hwt, hres, hres2]

/-- Claim C4, counterexample to the claim as stated: on a workbook whose
Winrate_vs sheet lacks a games column, the error message lists the sheet and
its headers but never names the missing logical field games. -/
theorem C4_counterexample :
    init_from_excel c4_wb ⟨none, none⟩ = (.error (.keyError c4_msg), ⟨none, none⟩)
  ∧ strContainsSub c4_msg ("games") = false :=
  ⟨rfl, rfl⟩

/-- Claim C4, witness: the message theorem applied to the concrete workbook
c4_wb. -/
theorem C4_witness :
    init_from_excel c4_wb ⟨none, none⟩ =
      (.error (.keyError (vs_err_msg c4_vs_sheet.headers)), ⟨none, none⟩) :=
  (C4_schema_error_message c4_wb ⟨none, none⟩ c4_vs_sheet c4_wt_sheet rfl rfl).1 rfl

/-- Claim C5 (corrected): on any load-time error _with_stats is never touched,
and _vs_stats is unchanged unless the error struck while building the with
table — in that one case _vs_stats already holds the newly built vs table
while _with_stats keeps its old value, so a partially updated snapshot is
visible. -/
theorem C5_store_mutation (excel : Workbook) (st st2 : ModuleState) (e : LoadErr)
    (h : init_from_excel excel st = (.error e, st2)) :
    st2.with_stats = st.with_stats ∧
    (st2 = st ∨ ∃ vs a b g w d,
        load_sheet excel ("Winrate_vs") = .ok vs ∧
        resolve_cols vs vs_b_cands = some (a, b, g, w) ∧
        build_stats vs.rows a b g w = .ok d ∧
        st2 = ⟨some d, st.with_stats⟩) := by
  unfold init_from_excel at h
  cases hvs : load_sheet excel ("Winrate_vs") with
  | error e1 =>
    simp only [hvs, Prod.mk.injEq] at h
    exact ⟨by rw [← h.2], Or.inl h.2.symm⟩
  | ok vs =>
    simp only [hvs] at h
    cases hwt : load_sheet excel ("Winrate_with") with
    | error e1 =>
      simp only [hwt, Prod.mk.injEq] at h
      exact ⟨by rw [← h.2], Or.inl h.2.symm⟩
    | ok wt =>
      simp only [hwt] at h
      cases hres1 : resolve_cols vs vs_b_cands with
      | none =>
        simp only [hres1, Prod.mk.injEq] at h
        exact ⟨by rw [← h.2], Or.inl h.2.symm⟩
      | some cols1 =>
        obtain ⟨a1, b1, g1, w1⟩ := cols1
        simp only [hres1] at h
        cases hres2 : resolve_cols wt with_b_cands with
        | none =>
          simp only [hres2, Prod.mk.injEq] at h
          exact ⟨by rw [← h.2], Or.inl h.2.symm⟩
        | some cols2 =>
          obtain ⟨a2, b2, g2, w2⟩ := cols2
          simp only [hres2] at h
          cases hb1 : build_stats vs.rows a1 b1 g1 w1 with
          | error e1 =>
            simp only [hb1, Prod.mk.injEq] at h
            exact ⟨by rw [← h.2], Or.inl h.2.symm⟩
          | ok d1 =>
            simp only [hb1] at h
            cases hb2 : build_stats wt.rows a2 b2 g2 w2 with
            | error e1 =>
              simp only [hb2, Prod.mk.injEq] at h
              refine ⟨?_, Or.inr ⟨vs, a1, b1, g1, w1, d1, rfl, hres1, hb1, ?_⟩⟩
              · rw [← h.2]
              · rw [← h.2]
            | ok d2 =>
              simp only [hb2, Prod.mk.injEq] at h
              exact absurd h.1 (fun hh => Except.noConfusion hh)

/-- Claim C5, counterexample to the claim as stated: from the loaded snapshot
c5_st0, init_from_excel on c5_wb raises while building the with table and
leaves the store at c5_poststate, whose _vs_stats is the new table (one ahri/zed
entry with 5 wins over 10 games) while c5_st0 held the empty table — the
stores are not left as they were. -/
theorem C5_counterexample :
    init_from_excel c5_wb c5_st0 = (.error (.valueError (.str ("oops"))), c5_poststate)
  ∧ c5_poststate.vs_stats = some [(("ahri", "zed"), (5, 10))]
  ∧ c5_st0.vs_stats = some []
  ∧ decide (c5_poststate = c5_st0) = false := by
  refine ⟨rfl, ?_, rfl, rfl⟩
  show some [(("ahri", "zed"), ((1 : ℚ) / 2 * 10, (10 : ℚ)))] = some [(("ahri", "zed"), (5, 10))]
  norm_num

/-- Claim C5, witness: the partial-mutation theorem applied to the concrete
failing load of c5_wb from c5_st0. -/
theorem C5_witness :
    c5_poststate.with_stats = c5_st0.with_stats ∧
    (c5_poststate = c5_st0 ∨ ∃ vs a b g w d,
        load_sheet c5_wb ("Winrate_vs") = .ok vs ∧
        resolve_cols vs vs_b_cands = some (a, b, g, w) ∧
        build_stats vs.rows a b g w = .ok d ∧
        c5_poststate = ⟨some d, c5_st0.with_stats⟩) :=
  C5_store_mutation c5_wb c5_st0 c5_poststate (.valueError (.str ("oops"))) rfl

lemma lookup_mem {α β : Type} [BEq α] [LawfulBEq α] {k : α} {v : β} :
    ∀ {l : List (α × β)}, List.lookup k l = some v → (k, v) ∈ l := by
  intro l
  induction l with
  | nil => intro h; simp [List.lookup] at h
  | cons p t ih =>
    obtain ⟨k0, v0⟩ := p
    intro h
    rw [List.lookup_cons] at h
    cases hbeq : k == k0 with
    | true =>
      simp only [hbeq] at h
      have hk : k = k0 := eq_of_beq hbeq
      have hv : v0 = v := by injection h
      rw [hk, ← hv]
      exact List.mem_cons_self _ _
    | false =>
      simp only [hbeq] at h
      exact List.mem_cons_of_mem _ (ih h)

lemma sum_map_filterMap {α β M : Type} [AddCommMonoid M] (F : α → Option β) (φ : β → M) :
    ∀ l : List α,
      ((l.filterMap F).map φ).sum = (l.map (fun a => ((F a).map φ).getD 0)).sum := by
  intro l
  induction l with
  | nil => rfl
  | cons a t ih =>
    cases hFa : F a with
    | none => simp [List.filterMap_cons, hFa, ih]
    | some b => simp [List.filterMap_cons, hFa, ih]

lemma pairsOf_cons {α : Type} (x : α) (l : List α) :
    pairsOf (x :: l) = l.map (fun y => (x, y)) ++ pairsOf l := rfl

lemma sum_pairs_perm {α : Type} {M : Type} [AddCommMonoid M] (f : α → α → M)
    (hsym : ∀ a b, f a b = f b a) {l1 l2 : List α} (h : l1.Perm l2) :
    ((pairsOf l1).map (fun p => f p.1 p.2)).sum = ((pairsOf l2).map (fun p => f p.1 p.2)).sum := by
  induction h with
  | nil => rfl
  | cons x hperm ih =>
    simp only [pairsOf_cons, List.map_append, List.sum_append, List.map_map]
    rw [ih, List.Perm.sum_eq (hperm.map _)]
  | swap x y l =>
    simp only [pairsOf_cons, List.map_append, List.map_cons, List.sum_append, List.sum_cons,
      List.map_map]
    rw [hsym y x]
    abel
  | trans h1 h2 ih1 ih2 => rw [ih1, ih2]

lemma lookup_with_symm {stats : Stats} (hod : oneDirectional stats) (a b : Option String) :
    lookup_with stats a b = lookup_with stats b a := by
  unfold lookup_with
  rw [Bool.or_comm]
  by_cases hf : (falsy b || falsy a) = true
  · rw [if_pos hf, if_pos hf]
  · rw [if_neg hf, if_neg hf]
    by_cases hxy : a.getD ("") = b.getD ("")
    · rw [hxy]
    · cases h1 : List.lookup (a.getD (""), b.getD ("")) stats with
      | some v =>
        have h2 : List.lookup (b.getD (""), a.getD ("")) stats = none := by
          cases h2 : List.lookup (b.getD (""), a.getD ("")) stats with
          | none => rfl
          | some u =>
            exact absurd (hod _ (lookup_mem h1) _ (lookup_mem h2) rfl rfl) hxy
        simp only [h1, h2]
      | none =>
        cases h2 : List.lookup (b.getD (""), a.getD ("")) stats with
        | some u => simp only [h1, h2]
        | none => simp only [h1, h2]

lemma filterMap_nil {α β : Type} {F : α → Option β} :
    ∀ {l : List α}, (∀ a ∈ l, F a = none) → l.filterMap F = [] := by
  intro l
  induction l with
  | nil => intro _; rfl
  | cons a t ih =>
    intro h
    simp only [List.filterMap_cons, h a (List.mem_cons_self _ _)]
    exact ih (fun x hx => h x (List.mem_cons_of_mem _ hx))

lemma mem_crossPairs {α β : Type} {p : α × β} :
    ∀ {la : List α} {lb : List β}, p ∈ crossPairs la lb → p.1 ∈ la ∧ p.2 ∈ lb := by
  intro la
  induction la with
  | nil => intro lb h; simp [crossPairs] at h
  | cons a rest ih =>
    intro lb h
    simp only [crossPairs] at h
    rw [List.mem_append] at h
    rcases h with h | h
    · rw [List.mem_map] at h
      obtain ⟨b, hb, rfl⟩ := h
      exact ⟨List.mem_cons_self _ _, hb⟩
    · obtain ⟨h1, h2⟩ := ih h
      exact ⟨List.mem_cons_of_mem _ h1, h2⟩

lemma mem_pairsOf {α : Type} {p : α × α} :
    ∀ {l : List α}, p ∈ pairsOf l → p.1 ∈ l ∧ p.2 ∈ l := by
  intro l
  induction l with
  | nil => intro h; simp [pairsOf] at h
  | cons a rest ih =>
    intro h
    simp only [pairsOf] at h
    rw [List.mem_append] at h
    rcases h with h | h
    · rw [List.mem_map] at h
      obtain ⟨b, hb, rfl⟩ := h
      exact ⟨List.mem_cons_self _ _, List.mem_cons_of_mem _ hb⟩
    · obtain ⟨h1, h2⟩ := ih h
      exact ⟨List.mem_cons_of_mem _ h1, List.mem_cons_of_mem _ h2⟩

lemma weighted_mean_nil : weighted_mean [] = MU_GLOBAL := by
  unfold weighted_mean wm_weight wm_total
  simp

lemma weighted_mean_single (w g : ℚ) (hg : (0 : ℝ) < (g : ℝ)) :
    weighted_mean [(w, g)] = shrink_prob (w : ℝ) (g : ℝ) := by
  have hwpos : 0 < weight_from_games (g : ℝ) := by
    unfold weight_from_games WEIGHT_CAP
    apply lt_min
    · rw [max_eq_left hg.le]
      exact Real.sqrt_pos.mpr hg
    · norm_num
  unfold weighted_mean wm_total wm_weight
  simp only [List.map_cons, List.map_nil, List.sum_cons, List.sum_nil, add_zero]
  rw [if_neg (not_le.mpr hwpos)]
  exact mul_div_cancel_right₀ _ (ne_of_gt hwpos)

lemma sum_pairs_filterMap_perm {α β M : Type} [AddCommMonoid M]
    (F : α → α → Option β) (φ : β → M) (hsym : ∀ a b, F a b = F b a)
    {l1 l2 : List α} (h : l1.Perm l2) :
    (((pairsOf l1).filterMap (fun p => F p.1 p.2)).map φ).sum
      = (((pairsOf l2).filterMap (fun p => F p.1 p.2)).map φ).sum := by
  rw [sum_map_filterMap, sum_map_filterMap]
  exact sum_pairs_perm (fun a b => ((F a b).map φ).getD 0)
    (fun a b => congrArg (fun o => (o.map φ).getD 0) (hsym a b)) h

/-- Claim C2 (corrected, amended part): when the pairing store records at most
one direction per unordered pair — the shape the spec assumes of the source
table — calcular_winrate_with is invariant under every reordering of the team,
because the lookup tries both orderings of each pair. -/
theorem C2_with_perm_invariant (stats : Stats) (t1 t2 : List String)
    (hod : oneDirectional stats) (hperm : List.Perm t1 t2) :
    calcular_winrate_with stats t1 = calcular_winrate_with stats t2 := by
  have hmap : (t1.map norm_name_str).Perm (t2.map norm_name_str) := hperm.map _
  have htot : wm_total (with_evidence stats t1) = wm_total (with_evidence stats t2) := by
    unfold wm_total with_evidence
    exact sum_pairs_filterMap_perm (fun a b => lookup_with stats a b) _
      (lookup_with_symm hod) hmap
  have hwt : wm_weight (with_evidence stats t1) = wm_weight (with_evidence stats t2) := by
    unfold wm_weight with_evidence
    exact sum_pairs_filterMap_perm (fun a b => lookup_with stats a b) _
      (lookup_with_symm hod) hmap
  unfold calcular_winrate_with weighted_mean
  rw [htot, hwt]

/-- Claim C2, counterexample to the claim as stated: over a loaded store
holding BOTH directions of the pair x, y with different statistics, swapping
the first two members of a 5-member team changes which direction the lookup
finds, and the aggregate moves from shrink(3,10) = 0.45 to
shrink(7,10) = 0.55 — so the aggregate is not invariant under reordering for
every loaded store. -/
theorem C2_counterexample :
    List.Perm cexTeam1 cexTeam2
  ∧ calcular_winrate_with cexStore cexTeam1 = shrink_prob 3 10
  ∧ calcular_winrate_with cexStore cexTeam2 = shrink_prob 7 10
  ∧ shrink_prob 3 10 < shrink_prob 7 10 := by
  have h3 : max (3 : ℝ) 0 = 3 := max_eq_left (by norm_num)
  have h7 : max (7 : ℝ) 0 = 7 := max_eq_left (by norm_num)
  have h10 : max (10 : ℝ) 0 = 10 := max_eq_left (by norm_num)
  refine ⟨by decide, ?_, ?_, ?_⟩
  · have h : with_evidence cexStore cexTeam1 = [(3, 10)] := rfl
    unfold calcular_winrate_with
    rw [h, weighted_mean_single 3 10 (by norm_num)]
    norm_cast
  · have h : with_evidence cexStore cexTeam2 = [(7, 10)] := rfl
    unfold calcular_winrate_with
    rw [h, weighted_mean_single 7 10 (by norm_num)]
    norm_cast
  · unfold shrink_prob
    rw [h3, h7, h10]
    unfold MU_GLOBAL K_PRIOR
    norm_num

/-- Claim C2, witness: on a one-directional store, the invariance theorem
applied to the concrete 5-member team and its reordering. -/
theorem C2_witness :
    oneDirectional cexStoreOne
  ∧ calcular_winrate_with cexStoreOne cexTeam1 = calcular_winrate_with cexStoreOne cexTeam2 := by
  have hod : oneDirectional cexStoreOne := by unfold oneDirectional; decide
  exact ⟨hod, C2_with_perm_invariant cexStoreOne cexTeam1 cexTeam2 hod (by decide)⟩

/-- Claim C6 (confirmed): for team pairs with zero overlapping evidence — no
cross-team ordered pair in the head-to-head store in either direction, and no
within-team pair in the pairing store in either ordering — every aggregator
falls back to the 0.5 baseline on zero total weight and
calcular_chance_vitoria returns exactly (50, 50). -/
theorem C6_no_evidence_fifty_fifty (vsS wS : Stats) (A B : List String)
    (hvs : ∀ a ∈ A.map norm_name_str, ∀ b ∈ B.map norm_name_str,
        List.lookup (a.getD (""), b.getD ("")) vsS = none ∧
        List.lookup (b.getD (""), a.getD ("")) vsS = none)
    (hwA : ∀ a ∈ A.map norm_name_str, ∀ b ∈ A.map norm_name_str,
        List.lookup (a.getD (""), b.getD ("")) wS = none)
    (hwB : ∀ a ∈ B.map norm_name_str, ∀ b ∈ B.map norm_name_str,
        List.lookup (a.getD (""), b.getD ("")) wS = none) :
    calcular_chance_vitoria vsS wS A B = (50, 50) := by
  have evs1 : vs_evidence vsS A B = [] := by
    apply filterMap_nil
    intro p hp
    obtain ⟨h1, h2⟩ := mem_crossPairs hp
    unfold lookup_vs
    by_cases hf : (falsy p.1 || falsy p.2) = true
    · rw [if_pos hf]
    · rw [if_neg hf]
      exact (hvs p.1 h1 p.2 h2).1
  have evs2 : vs_evidence vsS B A = [] := by
    apply filterMap_nil
    intro p hp
    obtain ⟨h1, h2⟩ := mem_crossPairs hp
    unfold lookup_vs
    by_cases hf : (falsy p.1 || falsy p.2) = true
    · rw [if_pos hf]
    · rw [if_neg hf]
      exact (hvs p.2 h2 p.1 h1).2
  have ew1 : with_evidence wS A = [] := by
    apply filterMap_nil
    intro p hp
    obtain ⟨h1, h2⟩ := mem_pairsOf hp
    unfold lookup_with
    by_cases hf : (falsy p.1 || falsy p.2) = true
    · rw [if_pos hf]
    · rw [if_neg hf]
      simp only [hwA p.1 h1 p.2 h2, hwA p.2 h2 p.1 h1]
  have ew2 : with_evidence wS B = [] := by
    apply filterMap_nil
    intro p hp
    obtain ⟨h1, h2⟩ := mem_pairsOf hp
    unfold lookup_with
    by_cases hf : (falsy p.1 || falsy p.2) = true
    · rw [if_pos hf]
    · rw [if_neg hf]
      simp only [hwB p.1 h1 p.2 h2, hwB p.2 h2 p.1 h1]
  unfold calcular_chance_vitoria team_score calcular_winrate_vs calcular_winrate_with
  rw [evs1, evs2, ew1, ew2, weighted_mean_nil]
  norm_num [MU_GLOBAL]

/-- Claim C6, witness: the zero-evidence theorem applied to empty stores and
empty teams, where the no-evidence hypotheses hold vacuously. -/
theorem C6_witness : calcular_chance_vitoria [] [] [] [] = (50, 50) :=
  C6_no_evidence_fifty_fifty [] [] [] [] (by simp) (by simp) (by simp)

/-- Claim C7 (confirmed): whenever calcular_chance_vitoria does not take the
zero-sum fallback branch, the two returned percentages sum to exactly 100 in
real arithmetic, for every store pair and every pair of input teams. -/
theorem C7_percentages_sum_100 (vsS wS : Stats) (A B : List String)
    (h : ¬ (team_score vsS wS A B + team_score vsS wS B A ≤ 0)) :
    (calcular_chance_vitoria vsS wS A B).1 + (calcular_chance_vitoria vsS wS A B).2 = 100 := by
  unfold calcular_chance_vitoria
  rw [if_neg h]
  have hs : team_score vsS wS A B + team_score vsS wS B A ≠ 0 := fun h0 => h (le_of_eq h0)
  field_simp
  ring

/-- Claim C7, witness: the sum theorem applied to the empty stores and empty
teams, where both team scores are 0.5 and the fallback branch is not taken. -/
theorem C7_witness :
    ¬ (team_score [] [] [] [] + team_score [] [] [] [] ≤ 0)
  ∧ (calcular_chance_vitoria [] [] [] []).1 + (calcular_chance_vitoria [] [] [] []).2 = 100 := by
  have hts : team_score [] [] [] [] = 1 / 2 := by
    unfold team_score calcular_winrate_vs calcular_winrate_with
    rw [show vs_evidence [] [] [] = [] from rfl, show with_evidence [] [] = [] from rfl,
      weighted_mean_nil]
    norm_num [MU_GLOBAL]
  have h : ¬ (team_score [] [] [] [] + team_score [] [] [] [] ≤ 0) := by
    rw [hts]
    norm_num
  exact ⟨h, C7_percentages_sum_100 [] [] [] [] h⟩

end Mega
